import Mathlib

/-!
Shallow embedding of the Cartoon Headshot Creator single-page app:
`src/App.tsx` (UI controller: state and event handlers) and
`src/services/geminiService.ts` (generation client).
-/

namespace Cartoon

/-- JavaScript `s.startsWith(p)`: `p` is an initial segment of `s`. -/
def jsStartsWith (s p : String) : Bool := p.data.isPrefixOf s.data

/-- `ImageData` from `types.ts` as used by `dataURLToImageData` and the service:
a media type together with a base64 payload. -/
structure ImageData where
  mimeType : String
  base64 : String
deriving DecidableEq

/-- Word character of a JavaScript regex `\w` without the `u` flag:
exactly `[A-Za-z0-9_]`. -/
def isWordChar (c : Char) : Bool :=
  ('a' ≤ c && c ≤ 'z') || ('A' ≤ c && c ≤ 'Z') || ('0' ≤ c && c ≤ '9') || c = '_'

/-- JavaScript regex line terminators, which `.` does not match:
LF, CR, LINE SEPARATOR, PARAGRAPH SEPARATOR. -/
def isLineTerminator (c : Char) : Bool :=
  c = '\n' || c = '\r' || c = Char.ofNat 0x2028 || c = Char.ofNat 0x2029

/-- `dataURLToImageData` (App.tsx lines 28-35): matches
`dataUrl` against the regex `^data:(image\/\w+);base64,(.*)$` and on success
returns `{ mimeType := capture 1, base64 := capture 2 }`.
The regex is deterministic: `\w+` takes the maximal run of word characters
(backtracking cannot help, since the following literal `;` is not a word
character), and `(.*)$` requires the rest of the string to contain no line
terminator. -/
def dataURLToImageData (dataUrl : String) : Option ImageData :=
  let cs := dataUrl.data
  let dataImage := ("data:image/").data
  if dataImage.isPrefixOf cs then
    let rest := cs.drop dataImage.length
    let w := rest.takeWhile isWordChar
    let rest2 := rest.dropWhile isWordChar
    let sep := (";base64,").data
    if w ≠ [] && sep.isPrefixOf rest2 then
      let payload := rest2.drop sep.length
      if payload.all (fun c => !isLineTerminator c) then
        some { mimeType := String.mk (("image/").data ++ w),
               base64 := String.mk payload }
      else none
    else none
  else none

/-! ## Generation client (`src/services/geminiService.ts`) -/

/-- The part of the instruction template before the interpolated `${prompt}`. -/
def promptPre : String :=
  "Generate a cartoon-style headshot based on the provided image. The style should be vibrant, friendly, and suitable for a profile picture. Apply the following user instructions: \""

/-- The part of the instruction template after the interpolated `${prompt}`. -/
def promptSuf : String :=
  "\". If no specific instructions are provided, create a standard, high-quality cartoon version."

/-- `fullPrompt` (geminiService.ts line 11): the template literal with the
user prompt interpolated between `promptPre` and `promptSuf`. -/
def fullPrompt (prompt : String) : String :=
  promptPre ++ prompt ++ promptSuf

/-- The generic fallback directive embedded in the instruction template. -/
def fallbackDirective : String :=
  "If no specific instructions are provided, create a standard, high-quality cartoon version."

/-- A part of the request sent to the service: either inline image data
(`imagePart`, with base64 data and media type) or text (`textPart`). -/
inductive ReqPart where
  | inline (data : String) (mimeType : String)
  | text (s : String)
deriving DecidableEq

/-- `[imagePart, textPart]` as assembled in geminiService.ts lines 13-28. -/
def requestParts (baseImage : ImageData) (prompt : String) : List ReqPart :=
  [.inline baseImage.base64 baseImage.mimeType, .text (fullPrompt prompt)]

/-- Output modality constant from the `@google/genai` SDK. -/
inductive Modality where
  | IMAGE
  | TEXT
deriving DecidableEq

/-- The full argument of `ai.models.generateContent` (geminiService.ts
lines 25-33): model name, content parts, response modalities. -/
structure ServiceRequest where
  model : String
  parts : List ReqPart
  responseModalities : List Modality
deriving DecidableEq

/-- The request `generateCartoonImage` issues for a given image and prompt. -/
def serviceRequest (baseImage : ImageData) (prompt : String) : ServiceRequest :=
  { model := "gemini-2.5-flash-image",
    parts := requestParts baseImage prompt,
    responseModalities := [Modality.IMAGE] }

/-- The `inlineData` payload of a response part; the code reads only `.data`. -/
structure InlinePayload where
  data : String
deriving DecidableEq

/-- One content part of the service response. `inlineData` is truthy (an
object) exactly when present. -/
structure ResPart where
  inlineData : Option InlinePayload
deriving DecidableEq

/-- A value thrown in JavaScript: either an `Error` instance (carrying its
`message`) or any non-`Error` value. -/
inductive Thrown where
  | jsError (msg : String)
  | nonError
deriving DecidableEq

/-- How the awaited `ai.models.generateContent` call behaves: it either
fulfills with a response whose first candidate has these content parts, or
rejects with a thrown value. -/
inductive ServiceBehavior where
  | respond (parts : List ResPart)
  | reject (e : Thrown)
deriving DecidableEq

/-- Error message thrown when no part carries inline image data
(geminiService.ts line 41). -/
def noImageMessage : String := "No image data found in the API response."

/-- Error message for a non-`Error` thrown value (geminiService.ts line 48). -/
def unknownErrorMessage : String :=
  "An unknown error occurred while generating the image."

/-- The wrapping applied by the `catch` block (geminiService.ts lines 43-49)
to an `Error` message. -/
def generationFailedMessage (m : String) : String :=
  "Failed to generate image: " ++ m

/-- The `for`-loop scan (geminiService.ts lines 35-39): the `data` of the
first part whose `inlineData` is present, if any. -/
def firstInlineData : List ResPart → Option String
  | [] => none
  | p :: rest =>
    match p.inlineData with
    | some payload => some payload.data
    | none => firstInlineData rest

/-- The `try` block of `generateCartoonImage` after the awaited call settles
(geminiService.ts lines 35-41): on a response, return the first inline
image data or throw an `Error` with `noImageMessage`; a rejection of the
awaited call re-raises the thrown value inside the `try`. -/
def tryBlockResult (svc : ServiceBehavior) : Except Thrown String :=
  match svc with
  | .respond parts =>
    match firstInlineData parts with
    | some d => .ok d
    | none => .error (.jsError noImageMessage)
  | .reject e => .error e

/-- The `catch` block (geminiService.ts lines 43-49): an `Error` is re-thrown
as `Failed to generate image: <message>`; anything else as the generic
unknown-error message. -/
def wrapCaught : Except Thrown String → Except String String
  | .ok d => .ok d
  | .error (.jsError m) => .error (generationFailedMessage m)
  | .error .nonError => .error unknownErrorMessage

/-- `generateCartoonImage` (geminiService.ts lines 5-50) as a function of the
service behavior: it sends `serviceRequest baseImage prompt` and settles with
the try/catch result. The settled outcome depends only on the behavior of the
awaited call, never on the request payload. -/
def generateCartoonImage (baseImage : ImageData) (prompt : String)
    (svc : ServiceBehavior) : Except String String :=
  wrapCaught (tryBlockResult svc)

/-! ## UI controller (`src/App.tsx`) -/

/-- The React state of `App` (App.tsx lines 39-43). -/
structure AppState where
  prompt : String
  originalImage : Option String
  generatedImage : Option String
  isLoading : Bool
  error : Option String
deriving DecidableEq

/-- The initial state: empty prompt, no images, not loading, no error. -/
def initialState : AppState :=
  { prompt := "", originalImage := none, generatedImage := none,
    isLoading := false, error := none }

/-- Error message for a file whose type lacks the image marker
(App.tsx line 49). -/
def invalidFileMessage : String :=
  "Please upload a valid image file (PNG, JPG, etc.)."

/-- Error message when the `FileReader` fails (App.tsx line 59). -/
def readFailMessage : String := "Failed to read the image file."

/-- Error message when generation is triggered without an image
(App.tsx line 67). -/
def uploadFirstMessage : String := "Please upload an image first."

/-- Error message when the stored data URL does not parse (App.tsx line 73). -/
def invalidFormatMessage : String := "Invalid image data format."

/-- Fallback message of `e.message || ...` in the App-level catch
(App.tsx line 85). -/
def unexpectedErrorMessage : String := "An unexpected error occurred."

/-- The data URL stored on success (App.tsx line 83): the media type is
hard-coded to `image/png`. -/
def pngDataUrl (b : String) : String := "data:image/png;base64," ++ b

/-- How the `FileReader` started in `handleFileChange` completes: `onloadend`
with `reader.result` as a string, or `onerror`. -/
inductive ReadOutcome where
  | success (dataUrl : String)
  | failure
deriving DecidableEq

/-- `handleFileChange` (App.tsx lines 45-63) for a selected file of declared
type `fileType`, together with the completion of the read it starts. If the
type does not start with `image/`, only the error is set and no read is
started, so the result does not depend on `outcome`. -/
def handleFileChange (s : AppState) (fileType : String)
    (outcome : ReadOutcome) : AppState :=
  if !(jsStartsWith fileType "image/") then
    { s with error := some invalidFileMessage }
  else
    match outcome with
    | .success dataUrl =>
      { s with originalImage := some dataUrl, generatedImage := none,
               error := none }
    | .failure => { s with error := some readFailMessage }

/-- The synchronous part of `handleGenerate` (App.tsx lines 65-79), up to and
including the state writes before the `await`. Returns the new state and the
request issued to the service, if any. `if (!originalImage)` is a JavaScript
truthiness test, so both `null` and the empty string take the
upload-first branch. -/
def generateStartStep (s : AppState) : AppState × Option ServiceRequest :=
  match s.originalImage with
  | none => ({ s with error := some uploadFirstMessage }, none)
  | some orig =>
    if orig = "" then ({ s with error := some uploadFirstMessage }, none)
    else
      match dataURLToImageData orig with
      | none => ({ s with error := some invalidFormatMessage }, none)
      | some imageData =>
        ({ s with isLoading := true, error := none, generatedImage := none },
         some (serviceRequest imageData s.prompt))

/-- The resumption of `handleGenerate` after `generateCartoonImage` settles
(App.tsx lines 81-88): store the PNG data URL on success, store
`e.message || 'An unexpected error occurred.'` on failure, and clear the
loading flag in the `finally` on both paths. -/
def generateCompleteStep (s : AppState) (outcome : Except String String) :
    AppState :=
  match outcome with
  | .ok b => { s with generatedImage := some (pngDataUrl b), isLoading := false }
  | .error m =>
    { s with error := some (if m = "" then unexpectedErrorMessage else m),
             isLoading := false }

/-- The events the UI handlers react to. A `generateComplete` carries the
behavior of the in-flight service call; the prompt textarea is disabled while
loading, but the file input is not. -/
inductive Event where
  | fileSelected (fileType : String) (outcome : ReadOutcome)
  | generateStart
  | generateComplete (svc : ServiceBehavior)
  | promptChanged (p : String)

/-- One step of the UI state machine. `isLoading` is true exactly while a
generation request is in flight (set when the request is issued, cleared when
it settles; the generate button is disabled while loading, so at most one is
in flight), so a `generateComplete` in a non-loading state cannot occur and
is a no-op. -/
def step (s : AppState) : Event → AppState
  | .fileSelected fileType outcome => handleFileChange s fileType outcome
  | .generateStart => (generateStartStep s).1
  | .generateComplete svc =>
    if s.isLoading then
      generateCompleteStep s (wrapCaught (tryBlockResult svc))
    else s
  | .promptChanged p => if s.isLoading then s else { s with prompt := p }

/-- Run a list of events from a state. -/
def run (s : AppState) (es : List Event) : AppState := es.foldl step s

/-- The states reachable from the initial state via the event handlers. -/
inductive Reachable : AppState → Prop
  | init : Reachable initialState
  | step {s : AppState} (e : Event) : Reachable s → Reachable (step s e)

end Cartoon

deriving instance DecidableEq for Except

namespace Cartoon

/-! ## Helper lemmas -/

/-- Folding events preserves reachability. -/
theorem reachable_foldl {s : AppState} (es : List Event) (h : Reachable s) :
    Reachable (es.foldl step s) := by
  induction es generalizing s with
  | nil => exact h
  | cons e es ih => exact ih (Reachable.step e h)

/-- The state after any event list from the initial state is reachable. -/
theorem reachable_run (es : List Event) : Reachable (run initialState es) :=
  reachable_foldl es Reachable.init

/-- Invariant: while a generation request is in flight, no generated image is
present — `generateStartStep` clears it when issuing the request, and nothing
can set it before the request settles (and clears the loading flag). -/
theorem loading_no_generated {s : AppState} (h : Reachable s) :
    s.isLoading = true → s.generatedImage = none := by
  induction h with
  | init => simp [initialState]
  | step e _ ih =>
    cases e with
    | fileSelected ft o =>
      simp only [step, handleFileChange]
      split
      · exact ih
      · cases o
        · simp
        · exact ih
    | generateStart =>
      simp only [step, generateStartStep]
      split
      · exact ih
      · split
        · exact ih
        · split
          · exact ih
          · simp
    | generateComplete svc =>
      simp only [step]
      split
      · cases hw : wrapCaught (tryBlockResult svc) <;>
          simp [generateCompleteStep, hw]
      · intro hl
        exact ih hl
    | promptChanged p =>
      simp only [step]
      split
      · exact ih
      · exact ih

/-- The user style text always appears verbatim in the built instruction. -/
theorem style_verbatim_in_fullPrompt (p : String) :
    p.data <:+: (fullPrompt p).data :=
  ⟨promptPre.data, promptSuf.data, by
    simp [fullPrompt, String.data_append, List.append_assoc]⟩

/-- The instruction suffix decomposes into the closing quote and the fallback
directive. -/
theorem promptSuf_eq : promptSuf = "\". " ++ fallbackDirective := by decide

/-- The generic fallback directive always appears in the built instruction. -/
theorem fallback_in_fullPrompt (p : String) :
    fallbackDirective.data <:+: (fullPrompt p).data :=
  ⟨(promptPre ++ p ++ "\". ").data, [], by
    simp [fullPrompt, promptSuf_eq, String.data_append, List.append_assoc]⟩

/-! ## Scenario event lists -/

/-- Upload a valid PNG, then trigger generation: the state is now loading. -/
def evtsLoading : List Event :=
  [.fileSelected "image/png" (.success "data:image/png;base64,iVBOR"),
   .generateStart]

/-- Upload a valid PNG, generate successfully, then select a non-image file. -/
def evtsSuccessThenInvalid : List Event :=
  [.fileSelected "image/png" (.success "data:image/png;base64,iVBOR"),
   .generateStart,
   .generateComplete (.respond [⟨some ⟨"XYZ"⟩⟩]),
   .fileSelected "text/plain" .failure]

/-- Upload a valid PNG, trigger generation, then select a non-image file while
the request is still in flight (the file input is not disabled while
loading). -/
def evtsInvalidWhileLoading : List Event :=
  [.fileSelected "image/png" (.success "data:image/png;base64,iVBOR"),
   .generateStart,
   .fileSelected "text/plain" .failure]

/-- Upload a valid PNG, trigger generation, and have the mocked service throw
an `Error` with message `rate limited`. -/
def evtsRateLimited : List Event :=
  [.fileSelected "image/png" (.success "data:image/png;base64,iVBOR"),
   .generateStart,
   .generateComplete (.reject (.jsError "rate limited"))]

end Cartoon

namespace Cartoon

/-! ## Claims -/

/-- Claim C1 is false as stated: the four display modes are not mutually
exclusive. After a successful generation, selecting a file whose declared
type is not an image sets the error message without clearing the displayed
generated image, so a reachable state has both an error message and a
generated image present. -/
theorem c1_counterexample :
    Reachable (run initialState evtsSuccessThenInvalid) ∧
    (run initialState evtsSuccessThenInvalid).error = some invalidFileMessage ∧
    (run initialState evtsSuccessThenInvalid).generatedImage =
      some "data:image/png;base64,XYZ" :=
  ⟨reachable_run evtsSuccessThenInvalid, by decide, by decide⟩

/-- Claim C1, amended: in every UI state reachable from the initial Idle
state via the event handlers, a generated image is never present while the
loading flag is true; the error message, however, is not exclusive with the
other two modes. -/
theorem c1_theorem (s : AppState) (h : Reachable s) (hl : s.isLoading = true) :
    s.generatedImage = none :=
  loading_no_generated h hl

/-- Witness for C1 at the concrete reachable loading state. -/
theorem c1_witness : (run initialState evtsLoading).generatedImage = none :=
  c1_theorem (run initialState evtsLoading) (reachable_run evtsLoading)
    (by decide)

/-- Claim C2 is false as stated: when no content part carries inline image
data, the `No image data found in the API response.` error is thrown inside
the same `try` block whose `catch` wraps every error, so `generateCartoonImage`
does not fail with the bare `NoImageInResponseError` message but with the
wrapped `Failed to generate image: ...` message. -/
theorem c2_counterexample :
    generateCartoonImage ⟨"image/png", "AA"⟩ "" (.respond [⟨none⟩]) ≠
      Except.error noImageMessage ∧
    generateCartoonImage ⟨"image/png", "AA"⟩ "" (.respond [⟨none⟩]) =
      Except.error (generationFailedMessage noImageMessage) :=
  ⟨by decide, rfl⟩

/-- Claim C2, amended: for every service response whose content parts contain
no part with inline image data, regardless of how many parts the response
has, `generateCartoonImage` fails with the `NoImageInResponseError` message
wrapped as `Failed to generate image: No image data found in the API
response.`, and the resulting UI state displays that error message and no
generated image. -/
theorem c2_theorem (parts : List ResPart) (img : ImageData) (p : String)
    (s : AppState) (hparts : firstInlineData parts = none)
    (hr : Reachable s) (hl : s.isLoading = true) :
    generateCartoonImage img p (.respond parts) =
      Except.error (generationFailedMessage noImageMessage) ∧
    (step s (.generateComplete (.respond parts))).error =
      some (generationFailedMessage noImageMessage) ∧
    (step s (.generateComplete (.respond parts))).generatedImage = none := by
  refine ⟨?_, ?_, ?_⟩
  · simp [generateCartoonImage, tryBlockResult, hparts, wrapCaught]
  · simp [step, hl, tryBlockResult, hparts, wrapCaught, generateCompleteStep,
      generationFailedMessage, noImageMessage]
  · simp [step, hl, tryBlockResult, hparts, wrapCaught, generateCompleteStep,
      loading_no_generated hr hl]

/-- Witness for C2: a single text-only part, at the concrete reachable
loading state. -/
theorem c2_witness :
    generateCartoonImage ⟨"image/png", "AA"⟩ "" (.respond [⟨none⟩]) =
      Except.error (generationFailedMessage noImageMessage) ∧
    (step (run initialState evtsLoading)
        (.generateComplete (.respond [⟨none⟩]))).error =
      some (generationFailedMessage noImageMessage) ∧
    (step (run initialState evtsLoading)
        (.generateComplete (.respond [⟨none⟩]))).generatedImage = none :=
  c2_theorem [⟨none⟩] ⟨"image/png", "AA"⟩ "" (run initialState evtsLoading)
    rfl (reachable_run evtsLoading) (by decide)

/-- Claim C3: every rejection of the service call is re-raised uniformly: an
`Error` is wrapped as `Failed to generate image: <message>`, a non-`Error`
thrown value (one with no message) becomes the generic unknown-error message;
and end-to-end, a mocked service throwing `rate limited` leaves the UI with
exactly `error = Failed to generate image: rate limited`, `loading = false`,
`generatedImage = null`. -/
theorem c3_theorem :
    (∀ (img : ImageData) (p m : String),
      generateCartoonImage img p (.reject (.jsError m)) =
        Except.error (generationFailedMessage m)) ∧
    (∀ (img : ImageData) (p : String),
      generateCartoonImage img p (.reject .nonError) =
        Except.error unknownErrorMessage) ∧
    (run initialState evtsRateLimited).error =
      some "Failed to generate image: rate limited" ∧
    (run initialState evtsRateLimited).isLoading = false ∧
    (run initialState evtsRateLimited).generatedImage = none :=
  ⟨fun _ _ _ => rfl, fun _ _ => rfl, by decide, by decide, by decide⟩

/-- Claim C4: the text part of the request sent to the service carries the
built instruction; with an empty style string the generic fallback directive
is embedded in it, and a non-empty style string appears in it verbatim. -/
theorem c4_theorem (img : ImageData) (p : String) :
    ReqPart.text (fullPrompt p) ∈ requestParts img p ∧
    (p = "" → fallbackDirective.data <:+: (fullPrompt p).data) ∧
    (p ≠ "" → p.data <:+: (fullPrompt p).data) :=
  ⟨by simp [requestParts],
   fun _ => fallback_in_fullPrompt p,
   fun _ => style_verbatim_in_fullPrompt p⟩

/-- Witness for C4 with the empty style string and with `pixar style`. -/
theorem c4_witness :
    ReqPart.text (fullPrompt "pixar style") ∈
      requestParts ⟨"image/png", "AA"⟩ "pixar style" ∧
    fallbackDirective.data <:+: (fullPrompt "").data ∧
    ("pixar style" : String).data <:+: (fullPrompt "pixar style").data :=
  have h1 := c4_theorem ⟨"image/png", "AA"⟩ "pixar style"
  have h2 := c4_theorem ⟨"image/png", "AA"⟩ ""
  ⟨h1.1, h2.2.1 rfl, h1.2.2 (by decide)⟩

/-- Claim C5: after the completion of any generation attempt — whether the
service call resolved with an image or rejected with an error — the loading
flag is false; the `finally`-modelled cleanup clears it on both paths, so no
state left by a completion is loading. -/
theorem c5_theorem (s : AppState) (svc : ServiceBehavior) :
    (step s (.generateComplete svc)).isLoading = false := by
  simp only [step]
  split
  · cases hw : wrapCaught (tryBlockResult svc) <;> simp [generateCompleteStep, hw]
  · rename_i h
    simpa using h

/-- Claim C6: selecting a file whose declared type does not start with
`image/` only sets the error message — the stored source image and generated
result keep their previous values — and the outcome of a file read is never
consulted (no read is attempted), so the result is independent of it. -/
theorem c6_theorem (s : AppState) (fileType : String) (outcome : ReadOutcome)
    (h : jsStartsWith fileType "image/" = false) :
    step s (.fileSelected fileType outcome) =
      { s with error := some invalidFileMessage } ∧
    ∀ outcome', step s (.fileSelected fileType outcome) =
      step s (.fileSelected fileType outcome') := by
  constructor
  · simp [step, handleFileChange, h]
  · intro outcome'
    simp [step, handleFileChange, h]

/-- Witness for C6: a `text/plain` file selected while a source image and a
generated result are displayed. -/
theorem c6_witness :
    jsStartsWith "text/plain" "image/" = false ∧
    step { prompt := "", originalImage := some "data:image/png;base64,AA",
           generatedImage := some "data:image/png;base64,BB",
           isLoading := false, error := none }
        (.fileSelected "text/plain" (.success "junk")) =
      { prompt := "", originalImage := some "data:image/png;base64,AA",
        generatedImage := some "data:image/png;base64,BB",
        isLoading := false, error := some invalidFileMessage } :=
  ⟨by decide,
   (c6_theorem
     { prompt := "", originalImage := some "data:image/png;base64,AA",
       generatedImage := some "data:image/png;base64,BB",
       isLoading := false, error := none }
     "text/plain" (.success "junk") (by decide)).1⟩

/-- Claim C7: when a file with a valid image type is selected and its read
completes successfully while a generated result is present, the decoded data
URL is stored as the new source image, the previous generated result is
cleared, and the error message is cleared. -/
theorem c7_theorem (s : AppState) (fileType dataUrl g : String)
    (hft : jsStartsWith fileType "image/" = true)
    (_hg : s.generatedImage = some g) :
    step s (.fileSelected fileType (.success dataUrl)) =
      { s with originalImage := some dataUrl, generatedImage := none,
               error := none } := by
  simp [step, handleFileChange, hft]

/-- Witness for C7: a new PNG selected while a result and an error are
displayed. -/
theorem c7_witness :
    step { prompt := "p", originalImage := some "data:image/png;base64,AA",
           generatedImage := some "data:image/png;base64,BB",
           isLoading := false, error := some "old" }
        (.fileSelected "image/jpeg" (.success "data:image/jpeg;base64,CC")) =
      { prompt := "p", originalImage := some "data:image/jpeg;base64,CC",
        generatedImage := none, isLoading := false, error := none } :=
  c7_theorem
    { prompt := "p", originalImage := some "data:image/png;base64,AA",
      generatedImage := some "data:image/png;base64,BB",
      isLoading := false, error := some "old" }
    "image/jpeg" "data:image/jpeg;base64,CC" "data:image/png;base64,BB"
    (by decide) rfl

/-- Claim C8 is false as stated: the file input is not disabled while a
request is in flight, so selecting a non-image file during generation sets
the error message while the loading flag is still true. -/
theorem c8_counterexample :
    Reachable (run initialState evtsInvalidWhileLoading) ∧
    (run initialState evtsInvalidWhileLoading).isLoading = true ∧
    (run initialState evtsInvalidWhileLoading).error =
      some invalidFileMessage :=
  ⟨reachable_run evtsInvalidWhileLoading, by decide, by decide⟩

/-- Claim C8, amended: the generate handler sets the error message and the
generated image to null in the same step that sets loading to true (exactly
when it issues a request), and the generated image stays null for as long as
loading is true; the error message, however, can be set while loading by a
file-selection event. -/
theorem c8_theorem (s : AppState) (hr : Reachable s) :
    (s.isLoading = true → s.generatedImage = none) ∧
    ((generateStartStep s).2.isSome →
      (generateStartStep s).1.isLoading = true ∧
      (generateStartStep s).1.error = none ∧
      (generateStartStep s).1.generatedImage = none) := by
  refine ⟨loading_no_generated hr, ?_⟩
  simp only [generateStartStep]
  split
  · simp
  · split
    · simp
    · split
      · simp
      · simp

/-- Witness for C8 at the concrete reachable loading state. -/
theorem c8_witness :
    ((run initialState evtsLoading).isLoading = true →
      (run initialState evtsLoading).generatedImage = none) ∧
    ((generateStartStep (run initialState evtsLoading)).2.isSome →
      (generateStartStep (run initialState evtsLoading)).1.isLoading = true ∧
      (generateStartStep (run initialState evtsLoading)).1.error = none ∧
      (generateStartStep (run initialState evtsLoading)).1.generatedImage =
        none) :=
  c8_theorem (run initialState evtsLoading) (reachable_run evtsLoading)

/-- Claim C9 is false as stated for exactly one stored value: the empty
string does not match the data-URL pattern either, but `if (!originalImage)`
is a JavaScript truthiness test, so a stored empty string takes the
upload-first branch and sets `Please upload an image first.` rather than
`Invalid image data format.`. -/
theorem c9_counterexample :
    dataURLToImageData "" = none ∧
    (generateStartStep { initialState with originalImage := some "" }).1.error =
      some uploadFirstMessage ∧
    uploadFirstMessage ≠ invalidFormatMessage :=
  ⟨rfl, rfl, by decide⟩

/-- Claim C9, amended: if the stored original image string is non-empty and
does not match the pattern `data:image/<word-characters>;base64,<payload>` —
which includes media types such as `image/svg+xml` that pass the upload
validation — then triggering generation only sets the error
`Invalid image data format.`: no request is issued to the service and the
loading flag is left unchanged (hence false). -/
theorem c9_theorem (s : AppState) (orig : String)
    (ho : s.originalImage = some orig) (hne : orig ≠ "")
    (hmatch : dataURLToImageData orig = none) :
    generateStartStep s = ({ s with error := some invalidFormatMessage }, none) := by
  simp [generateStartStep, ho, hne, hmatch]

/-- Witness for C9: a stored `image/svg+xml` data URL, which passes the
upload check but fails the pattern. -/
theorem c9_witness :
    jsStartsWith "image/svg+xml" "image/" = true ∧
    dataURLToImageData "data:image/svg+xml;base64,AAAA" = none ∧
    generateStartStep
        { prompt := "", originalImage := some "data:image/svg+xml;base64,AAAA",
          generatedImage := none, isLoading := false, error := none } =
      ({ prompt := "",
         originalImage := some "data:image/svg+xml;base64,AAAA",
         generatedImage := none, isLoading := false,
         error := some invalidFormatMessage }, none) :=
  ⟨by decide, by decide,
   c9_theorem
     { prompt := "", originalImage := some "data:image/svg+xml;base64,AAAA",
       generatedImage := none, isLoading := false, error := none }
     "data:image/svg+xml;base64,AAAA" rfl (by decide) (by decide)⟩

/-- Claim C10: whenever an in-flight generation completes with a response
whose first inline part carries bytes `b`, the stored generated image is
exactly `data:image/png;base64,` concatenated with `b` — the media type is
hard-coded to `image/png` whatever the source image type or the actual
format of the returned bytes. -/
theorem c10_theorem (s : AppState) (parts : List ResPart) (b : String)
    (hl : s.isLoading = true) (hfirst : firstInlineData parts = some b) :
    (step s (.generateComplete (.respond parts))).generatedImage =
      some ("data:image/png;base64," ++ b) := by
  simp [step, hl, tryBlockResult, hfirst, wrapCaught, generateCompleteStep,
    pngDataUrl]

/-- Witness for C10: a JPEG source image in flight, service bytes `XYZ`. -/
theorem c10_witness :
    (step { prompt := "", originalImage := some "data:image/jpeg;base64,AA",
            generatedImage := none, isLoading := true, error := none }
        (.generateComplete (.respond [⟨some ⟨"XYZ"⟩⟩]))).generatedImage =
      some ("data:image/png;base64," ++ "XYZ") :=
  c10_theorem
    { prompt := "", originalImage := some "data:image/jpeg;base64,AA",
      generatedImage := none, isLoading := true, error := none }
    [⟨some ⟨"XYZ"⟩⟩] "XYZ" rfl rfl

end Cartoon
